import Mathlib

/-!
Verification of the litestar Dapr extension (`dapr/ext/litestar/actor.py` and
`dapr/ext/litestar/app.py`) against its natural-language specification.

The embedding is shallow: Python dicts with string keys become association
lists (Python dicts preserve insertion order, so a list of key/value pairs is
a faithful model), raw bytes become `List Nat`, and each HTTP endpoint is a
pure function parameterized by the outcome of its awaited call into the
external actor runtime facade (`Except PyError α`: `.error` models the awaited
call raising, `.ok` its normal return).  An endpoint's own result is also an
`Except PyError Response`: `.ok r` means the endpoint itself returns the
response `r`, while `.error e` means the exception `e` escapes the endpoint
uncaught (there is no surrounding `try`/`except` in the source) and is left
to the web framework.
-/

namespace DaprExtLitestar

/-- A JSON value as it occurs in the bodies this adapter builds: either a
string or a string-to-string mapping (used for subscription metadata and for
structured error details). -/
inductive JVal where
  | str (s : String)
  | smap (m : List (String × String))
deriving DecidableEq, Repr

/-- A JSON object: an insertion-ordered list of key/value pairs, modelling a
Python dict with string keys. -/
abbrev JObj := List (String × JVal)

/-- The body of an HTTP response: either a JSON object or raw bytes. -/
inductive Content where
  | json (o : JObj)
  | bytes (b : List Nat)
deriving DecidableEq, Repr

/-- The litestar `Response` as constructed by this adapter: a content value,
an optional explicit status code (litestar's `Response` takes
`status_code = None` by default, in which case the route handler's own status
code applies when the response is sent), and an optional media type. -/
structure Response where
  content : Content
  status_code : Option Nat
  media_type : Option String
deriving DecidableEq, Repr

/-- `DEFAULT_CONTENT_TYPE` from `actor.py`. -/
def DEFAULT_CONTENT_TYPE : String := "application/json; utf-8"

/-- When a litestar handler returns a `Response` whose `status_code` is
`None`, the status actually sent is the handler's own status code (200 for
the `get` and `put` routes of this adapter, which are the only handlers that
produce binary bodies). -/
def effectiveStatus (handler_default : Nat) (r : Response) : Nat :=
  match r.status_code with
  | some s => s
  | none => handler_default

/-- The runtime type of the `msg` argument of `_wrap_response`, which the
Python source discriminates with `isinstance`: a `str`, `bytes`, or any
other (structured) object. -/
inductive Msg where
  | str (s : String)
  | bytes (b : List Nat)
  | obj (o : JObj)
deriving DecidableEq, Repr

/-- Python truthiness of the `error_code : Optional[str]` argument: `None`
and the empty string are falsy, every other string is truthy. -/
def truthy : Option String → Bool
  | none => false
  | some s => decide (s ≠ "")

/-- `_wrap_response` from `actor.py` lines 30-47.  A `str` message is wrapped
as `\x7b'message': msg\x7d`, gaining an `errorCode` key only when the status
code is outside [200, 300) and the error code is truthy; a `bytes` message is
emitted verbatim with the given media type and no explicit status code; any
other message is used as the body directly with the given status code. -/
def _wrap_response (status_code : Nat) (msg : Msg)
    (error_code : Option String) (content_type : Option String) : Response :=
  match msg with
  | .str s =>
      let response_obj : JObj := [("message", JVal.str s)]
      let response_obj : JObj :=
        if ¬(200 ≤ status_code ∧ status_code < 300) ∧ truthy error_code = true then
          response_obj ++ [("errorCode", JVal.str (error_code.getD ""))]
        else
          response_obj
      { content := Content.json response_obj, status_code := some status_code,
        media_type := none }
  | .bytes b =>
      { content := Content.bytes b, status_code := none, media_type := content_type }
  | .obj o =>
      { content := Content.json o, status_code := some status_code, media_type := none }

/-- Modelled from the spec: the exceptions the actor runtime facade
(`dapr.actor.ActorRuntime`, with `DaprInternalError` from
`dapr.clients.exceptions`) may raise are not under `src/`.  Per the spec's
error model there are two kinds: a `StructuredInternalError`
(`DaprInternalError`), whose `as_dict` exposes a machine-readable detail
payload, and any other unrecognized error, observed only through its textual
description (`repr(ex)`). -/
inductive PyError where
  | daprInternalError (as_dict : JObj)
  | otherError (excRepr : String)
deriving DecidableEq, Repr

/-- Modelled from the spec: `ERROR_CODE_UNKNOWN` is imported from
`dapr.clients.exceptions`, which is not under `src/`; the spec fixes its
value as the generic code `"UNKNOWN"`. -/
def ERROR_CODE_UNKNOWN : String := "UNKNOWN"

/-- The `dapr_config` endpoint (`actor.py` lines 65-68), parameterized by the
outcome of serializing `ActorRuntime.get_actor_config()` (the serializer
returns bytes).  There is no `try`/`except` in this handler, so a raised
exception escapes uncaught. -/
def dapr_config (serialized : Except PyError (List Nat)) : Except PyError Response :=
  match serialized with
  | .error e => .error e
  | .ok s => .ok (_wrap_response 200 (Msg.bytes s) none (some DEFAULT_CONTENT_TYPE))

/-- The `actor_deactivation` endpoint (`actor.py` lines 70-86), parameterized
by the outcome of `ActorRuntime.deactivate`. -/
def actor_deactivation (actor_type_name actor_id : String)
    (deactivate_result : Except PyError Unit) : Except PyError Response :=
  match deactivate_result with
  | .error (.daprInternalError d) =>
      .ok (_wrap_response 500 (Msg.obj d) none (some DEFAULT_CONTENT_TYPE))
  | .error (.otherError r) =>
      .ok (_wrap_response 500 (Msg.str r) (some ERROR_CODE_UNKNOWN)
        (some DEFAULT_CONTENT_TYPE))
  | .ok _ =>
      .ok (_wrap_response 202
        (Msg.str ("deactivated actor: " ++ actor_type_name ++ "." ++ actor_id))
        none (some DEFAULT_CONTENT_TYPE))

/-- The `actor_method` endpoint (`actor.py` lines 88-112), parameterized by
the outcome of the `try` block (reading the body and awaiting
`ActorRuntime.dispatch`, which returns bytes).  On success the raw dispatch
result bytes are wrapped with status 200. -/
def actor_method (actor_type_name actor_id method_name : String)
    (dispatch_result : Except PyError (List Nat)) : Except PyError Response :=
  match dispatch_result with
  | .error (.daprInternalError d) =>
      .ok (_wrap_response 500 (Msg.obj d) none (some DEFAULT_CONTENT_TYPE))
  | .error (.otherError r) =>
      .ok (_wrap_response 500 (Msg.str r) (some ERROR_CODE_UNKNOWN)
        (some DEFAULT_CONTENT_TYPE))
  | .ok result =>
      .ok (_wrap_response 200 (Msg.bytes result) none (some DEFAULT_CONTENT_TYPE))

/-- The `actor_timer` endpoint (`actor.py` lines 114-137), parameterized by
the outcome of `ActorRuntime.fire_timer`. -/
def actor_timer (actor_type_name actor_id timer_name : String)
    (fire_result : Except PyError Unit) : Except PyError Response :=
  match fire_result with
  | .error (.daprInternalError d) =>
      .ok (_wrap_response 500 (Msg.obj d) none (some DEFAULT_CONTENT_TYPE))
  | .error (.otherError r) =>
      .ok (_wrap_response 500 (Msg.str r) (some ERROR_CODE_UNKNOWN)
        (some DEFAULT_CONTENT_TYPE))
  | .ok _ =>
      .ok (_wrap_response 200
        (Msg.str ("called timer. actor: " ++ actor_type_name ++ "." ++ actor_id ++
          ", timer: " ++ timer_name))
        none (some DEFAULT_CONTENT_TYPE))

/-- The `actor_reminder` endpoint (`actor.py` lines 139-163), parameterized
by the outcome of `ActorRuntime.fire_reminder`. -/
def actor_reminder (actor_type_name actor_id reminder_name : String)
    (fire_result : Except PyError Unit) : Except PyError Response :=
  match fire_result with
  | .error (.daprInternalError d) =>
      .ok (_wrap_response 500 (Msg.obj d) none (some DEFAULT_CONTENT_TYPE))
  | .error (.otherError r) =>
      .ok (_wrap_response 500 (Msg.str r) (some ERROR_CODE_UNKNOWN)
        (some DEFAULT_CONTENT_TYPE))
  | .ok _ =>
      .ok (_wrap_response 200
        (Msg.str ("called reminder. actor: " ++ actor_type_name ++ "." ++ actor_id ++
          ", reminder: " ++ reminder_name))
        none (some DEFAULT_CONTENT_TYPE))

/-- The HTTP method of a registered route handler. -/
inductive HttpMethod where
  | get
  | post
deriving DecidableEq, Repr

/-- The observable state of a `DaprApp` (`app.py`): the routes registered on
the wrapped litestar app and the accumulated `_subscriptions` list.  The
handler type `H` is abstract: the registry stores handler functions without
inspecting them. -/
structure AppState (H : Type) where
  routes : List (HttpMethod × String × H)
  subscriptions : List JObj
deriving DecidableEq, Repr

/-- `DaprApp.__init__` (`app.py` lines 28-35): starts with an empty
`_subscriptions` list and registers the `GET /dapr/subscribe` discovery
route. -/
def DaprApp_init {H : Type} (discovery_handler : H) : AppState H :=
  { routes := [(HttpMethod.get, "/dapr/subscribe", discovery_handler)],
    subscriptions := [] }

/-- The effective route computed in `decorator` (`app.py` line 72):
`/events/...` built from the pubsub and topic names when no explicit route is
given, the explicit route otherwise. -/
def event_handler_route (pubsub topic : String) (route : Option String) : String :=
  match route with
  | none => "/events/" ++ pubsub ++ "/" ++ topic
  | some r => r

/-- The subscription dict literal appended by `decorator` (`app.py` lines
76-82): the keys `pubsubname`, `topic`, `route`, `metadata` in insertion
order, followed by `deadLetterTopic` exactly when `dead_letter_topic` is not
`None`. -/
def subscriptionRecord (pubsub topic : String) (metadata : List (String × String))
    (route : Option String) (dead_letter_topic : Option String) : JObj :=
  [("pubsubname", JVal.str pubsub),
   ("topic", JVal.str topic),
   ("route", JVal.str (event_handler_route pubsub topic route)),
   ("metadata", JVal.smap metadata)] ++
  (match dead_letter_topic with
   | some d => [("deadLetterTopic", JVal.str d)]
   | none => [])

/-- The `decorator` closure returned by `DaprApp.subscribe` (`app.py` lines
71-84), applied to a handler `func` in app state `st`.  It registers a POST
route at the effective route bound to `func` itself, appends the subscription
record, and — having no `return` statement — evaluates to Python `None`
(modelled as `none : Option H`). -/
def decorator {H : Type} (pubsub topic : String) (metadata : List (String × String))
    (route : Option String) (dead_letter_topic : Option String)
    (st : AppState H) (func : H) : AppState H × Option H :=
  let r := event_handler_route pubsub topic route
  ({ routes := st.routes ++ [(HttpMethod.post, r, func)],
     subscriptions :=
       st.subscriptions ++ [subscriptionRecord pubsub topic metadata route dead_letter_topic] },
   none)

/-- `DaprApp._get_subscriptions` (`app.py` lines 86-87): returns the
accumulated subscription list unchanged. -/
def _get_subscriptions {H : Type} (st : AppState H) : List JObj :=
  st.subscriptions

/-- The arguments of one `DaprApp.subscribe` call. -/
structure SubscribeCall where
  pubsub : String
  topic : String
  metadata : List (String × String)
  route : Option String
  dead_letter_topic : Option String
deriving DecidableEq, Repr

/-- The subscription record produced by one `subscribe` call. -/
def recordOf (c : SubscribeCall) : JObj :=
  subscriptionRecord c.pubsub c.topic c.metadata c.route c.dead_letter_topic

/-- Applying the decorator of one `subscribe` call to a handler, keeping only
the resulting app state. -/
def applySubscribe {H : Type} (st : AppState H) (c : SubscribeCall) (f : H) : AppState H :=
  (decorator c.pubsub c.topic c.metadata c.route c.dead_letter_topic st f).1

/-- Applying a sequence of `subscribe` decorator applications in order. -/
def applyCalls {H : Type} (st : AppState H) (calls : List (SubscribeCall × H)) : AppState H :=
  calls.foldl (fun s cf => applySubscribe s cf.1 cf.2) st

deriving instance DecidableEq for Except

/-! ## Theorems -/

/-- Helper: the `str` branch of `_wrap_response` in closed form. -/
theorem wrap_response_str_eq (status_code : Nat) (m : String) (e ct : Option String) :
    _wrap_response status_code (Msg.str m) e ct =
      { content := Content.json
          (if ¬(200 ≤ status_code ∧ status_code < 300) ∧ truthy e = true then
            [("message", JVal.str m), ("errorCode", JVal.str (e.getD ""))]
          else [("message", JVal.str m)]),
        status_code := some status_code, media_type := none } := rfl

/-- Claim C3: for every binary payload `b`, status code `s`, error code and
content type `c`, `_wrap_response` emits the bytes verbatim with media type
`c` and no explicit status code, so the status sent is the handler's default
of 200 — in particular the supplied status code `s` is ignored. -/
theorem c3_binary_payload (s : Nat) (b : List Nat) (e : Option String) (c : String) :
    (_wrap_response s (Msg.bytes b) e (some c)).content = Content.bytes b ∧
    (_wrap_response s (Msg.bytes b) e (some c)).media_type = some c ∧
    (_wrap_response s (Msg.bytes b) e (some c)).status_code = none ∧
    effectiveStatus 200 (_wrap_response s (Msg.bytes b) e (some c)) = 200 :=
  ⟨rfl, rfl, rfl, rfl⟩

/-- Counterexample to claim C5 as stated: with the supplied error code `c`
being the empty string and status 500 (outside [200, 300)), the body is
`\x7b"message": "m"\x7d` with no `errorCode` key at all, because the Python
source tests the error code for truthiness and the empty string is falsy;
the claim would require `errorCode` present and equal to `""`. -/
theorem c5_counterexample :
    (_wrap_response 500 (Msg.str "m") (some "") (some DEFAULT_CONTENT_TYPE)).content =
      Content.json [("message", JVal.str "m")] ∧
    (_wrap_response 500 (Msg.str "m") (some "") (some DEFAULT_CONTENT_TYPE)).content ≠
      Content.json [("message", JVal.str "m"), ("errorCode", JVal.str "")] := by
  decide

/-- Claim C5 (amended): for every textual payload `m`, status code `s` and
supplied nonempty error code `c`, the body of `_wrap_response s m c` is
`\x7bmessage: m\x7d` with the `errorCode` key present and equal to `c`
exactly when `s` is outside [200, 300), and omitted when `s` is in
[200, 300); a supplied empty-string error code is treated like an absent one
(Python truthiness). -/
theorem c5_text_error_code (m : String) (s : Nat) (c : String) (h : c ≠ "") :
    (_wrap_response s (Msg.str m) (some c) (some DEFAULT_CONTENT_TYPE)).content =
      Content.json
        (if 200 ≤ s ∧ s < 300 then [("message", JVal.str m)]
         else [("message", JVal.str m), ("errorCode", JVal.str c)]) ∧
    (_wrap_response s (Msg.str m) (some c) (some DEFAULT_CONTENT_TYPE)).status_code =
      some s := by
  refine ⟨?_, rfl⟩
  rw [wrap_response_str_eq]
  have hc : truthy (some c) = true := decide_eq_true h
  by_cases hs : 200 ≤ s ∧ s < 300
  · simp [hc, hs]
  · simp [hc, hs]

/-- Witness for `c5_text_error_code` at `m = "m"`, `s = 500`, `c = "X"`. -/
theorem c5_text_error_code_witness :
    ("X" : String) ≠ "" ∧
    ((_wrap_response 500 (Msg.str "m") (some "X") (some DEFAULT_CONTENT_TYPE)).content =
      Content.json
        (if 200 ≤ 500 ∧ 500 < 300 then [("message", JVal.str "m")]
         else [("message", JVal.str "m"), ("errorCode", JVal.str "X")]) ∧
     (_wrap_response 500 (Msg.str "m") (some "X") (some DEFAULT_CONTENT_TYPE)).status_code =
      some 500) :=
  ⟨by decide, c5_text_error_code "m" 500 "X" (by decide)⟩

/-- Counterexample to claim C1 as stated: the config endpoint (`dapr_config`)
has no `try`/`except`, so when the facade call raises an unrecognized error
with description `"boom"` the exception propagates uncaught instead of being
translated to the HTTP 500 body
`\x7b"message":"boom","errorCode":"UNKNOWN"\x7d`. -/
theorem c1_counterexample :
    dapr_config (Except.error (PyError.otherError "boom")) =
      Except.error (PyError.otherError "boom") ∧
    dapr_config (Except.error (PyError.otherError "boom")) ≠
      Except.ok { content := Content.json [("message", JVal.str "boom"), ("errorCode", JVal.str "UNKNOWN")],
                  status_code := some 500, media_type := none } := by
  decide

/-- Claim C1 (amended): of the five non-health actor endpoints, the four that
wrap their facade call in a `try`/`except` (deactivation, method invocation,
timer firing, reminder firing) return HTTP 500 with body exactly
`\x7b"message": r, "errorCode": "UNKNOWN"\x7d` when the facade raises an
unrecognized error with description `r` (in particular `"boom"`); the config
endpoint, by contrast, propagates the exception uncaught. -/
theorem c1_unknown_error_envelope (t i m tm rm r : String) :
    actor_deactivation t i (Except.error (PyError.otherError r)) =
      Except.ok { content := Content.json [("message", JVal.str r), ("errorCode", JVal.str "UNKNOWN")],
                  status_code := some 500, media_type := none } ∧
    actor_method t i m (Except.error (PyError.otherError r)) =
      Except.ok { content := Content.json [("message", JVal.str r), ("errorCode", JVal.str "UNKNOWN")],
                  status_code := some 500, media_type := none } ∧
    actor_timer t i tm (Except.error (PyError.otherError r)) =
      Except.ok { content := Content.json [("message", JVal.str r), ("errorCode", JVal.str "UNKNOWN")],
                  status_code := some 500, media_type := none } ∧
    actor_reminder t i rm (Except.error (PyError.otherError r)) =
      Except.ok { content := Content.json [("message", JVal.str r), ("errorCode", JVal.str "UNKNOWN")],
                  status_code := some 500, media_type := none } :=
  ⟨rfl, rfl, rfl, rfl⟩

/-- Counterexample to claim C4 as stated: the config endpoint calls the
facade (`get_actor_config`) but has no `try`/`except`, so a
`StructuredInternalError` with detail `\x7b"foo":"bar"\x7d` propagates
uncaught instead of producing an HTTP 500 with that detail as body. -/
theorem c4_counterexample :
    dapr_config (Except.error (PyError.daprInternalError [("foo", JVal.str "bar")])) =
      Except.error (PyError.daprInternalError [("foo", JVal.str "bar")]) ∧
    dapr_config (Except.error (PyError.daprInternalError [("foo", JVal.str "bar")])) ≠
      Except.ok { content := Content.json [("foo", JVal.str "bar")],
                  status_code := some 500, media_type := none } := by
  decide

/-- Claim C4 (amended): of the actor endpoints that call the dispatch facade,
the four with a `try`/`except` (deactivation, method invocation, timer
firing, reminder firing) return HTTP 500 whose body is exactly the
`StructuredInternalError`'s detail payload verbatim (in particular
`\x7b"foo":"bar"\x7d`), with no wrapping envelope; the config endpoint
instead propagates the exception uncaught. -/
theorem c4_structured_error_body (t i m tm rm : String) (d : JObj) :
    actor_deactivation t i (Except.error (PyError.daprInternalError d)) =
      Except.ok { content := Content.json d, status_code := some 500,
                  media_type := none } ∧
    actor_method t i m (Except.error (PyError.daprInternalError d)) =
      Except.ok { content := Content.json d, status_code := some 500,
                  media_type := none } ∧
    actor_timer t i tm (Except.error (PyError.daprInternalError d)) =
      Except.ok { content := Content.json d, status_code := some 500,
                  media_type := none } ∧
    actor_reminder t i rm (Except.error (PyError.daprInternalError d)) =
      Except.ok { content := Content.json d, status_code := some 500,
                  media_type := none } :=
  ⟨rfl, rfl, rfl, rfl⟩

/-- Counterexample to claim C2 as stated: the `decorator` closure has no
`return` statement, so applying it to a handler evaluates to Python `None`,
not to the handler — with handler ids drawn from `Nat` and handler `7`, the
decorator's value is `none`, not `some 7`, so a name bound with `@`-decorator
syntax would be rebound to `None` rather than denote the handler. -/
theorem c2_counterexample :
    (decorator "p" "t" [] none none (DaprApp_init (0 : Nat)) 7).2 = none ∧
    (decorator "p" "t" [] none none (DaprApp_init (0 : Nat)) 7).2 ≠ some 7 := by
  decide

/-- Claim C2 (amended): applying the decorator registers the HTTP POST route
bound to the unmodified handler `func` itself and appends the subscription
record, and these are its only effects on the app state — the handler is
never wrapped or altered; however, the decorator evaluates to `None` rather
than to the handler, so the decorated name is rebound to `None`. -/
theorem c2_decorator_effects {H : Type} (pubsub topic : String)
    (metadata : List (String × String)) (route : Option String)
    (dead_letter_topic : Option String) (st : AppState H) (func : H) :
    decorator pubsub topic metadata route dead_letter_topic st func =
      ({ routes := st.routes ++
            [(HttpMethod.post, event_handler_route pubsub topic route, func)],
         subscriptions := st.subscriptions ++
            [subscriptionRecord pubsub topic metadata route dead_letter_topic] },
       (none : Option H)) :=
  rfl

/-- Claim C6: the record produced by `subscribe(pubsub = p, topic = t)` has
route `"/events/" ++ p ++ "/" ++ t` when no explicit route is given, and the
explicit route `r` when one is given; the decorator appends exactly that
record. -/
theorem c6_effective_route {H : Type} (p t r : String)
    (metadata : List (String × String)) (dlt : Option String)
    (st : AppState H) (f : H) :
    List.lookup "route" (subscriptionRecord p t metadata none dlt) =
      some (JVal.str ("/events/" ++ p ++ "/" ++ t)) ∧
    List.lookup "route" (subscriptionRecord p t metadata (some r) dlt) =
      some (JVal.str r) ∧
    (decorator p t metadata none dlt st f).1.subscriptions =
      st.subscriptions ++ [subscriptionRecord p t metadata none dlt] ∧
    (decorator p t metadata (some r) dlt st f).1.subscriptions =
      st.subscriptions ++ [subscriptionRecord p t metadata (some r) dlt] :=
  ⟨rfl, rfl, rfl, rfl⟩

/-- Counterexample to claim C7 as stated: the stored record spells its first
key `"pubsubname"` (all lowercase, as in the Dapr subscribe protocol), so the
claimed key `"pubsubName"` is absent. -/
theorem c7_counterexample :
    List.lookup "pubsubName" (subscriptionRecord "p" "t" [] none none) = none ∧
    (subscriptionRecord "p" "t" [] none none).map Prod.fst =
      ["pubsubname", "topic", "route", "metadata"] := by
  decide

/-- Claim C7 (amended): every record appended by `subscribe` has exactly the
keys `pubsubname` (all lowercase, not the spec's `pubsubName`), `topic`,
`route`, `metadata`, and — exactly when a dead-letter topic is supplied —
`deadLetterTopic`, with string values throughout except `metadata`, which is
a string-to-string mapping. -/
theorem c7_record_fields (p t : String) (m : List (String × String))
    (r : Option String) :
    (subscriptionRecord p t m r none).map Prod.fst =
      ["pubsubname", "topic", "route", "metadata"] ∧
    (∀ d : String, (subscriptionRecord p t m r (some d)).map Prod.fst =
      ["pubsubname", "topic", "route", "metadata", "deadLetterTopic"]) ∧
    subscriptionRecord p t m r none =
      [("pubsubname", JVal.str p), ("topic", JVal.str t),
       ("route", JVal.str (event_handler_route p t r)), ("metadata", JVal.smap m)] :=
  ⟨rfl, fun _ => rfl, rfl⟩

/-- Claim C8: when a dead-letter topic `d` is supplied, the record the
decorator appends contains the key `deadLetterTopic` with value `d`; when it
is omitted (`None`), the record contains no `deadLetterTopic` key at all. -/
theorem c8_dead_letter_topic {H : Type} (p t : String)
    (m : List (String × String)) (r : Option String) (d : String)
    (st : AppState H) (f : H) :
    (decorator p t m r (some d) st f).1.subscriptions =
      st.subscriptions ++ [subscriptionRecord p t m r (some d)] ∧
    List.lookup "deadLetterTopic" (subscriptionRecord p t m r (some d)) =
      some (JVal.str d) ∧
    "deadLetterTopic" ∉ (subscriptionRecord p t m r none).map Prod.fst := by
  refine ⟨rfl, rfl, ?_⟩
  show "deadLetterTopic" ∉ ["pubsubname", "topic", "route", "metadata"]
  decide

/-- Claim C9: after any sequence of `subscribe` decorator applications (in
particular any three), `_get_subscriptions` returns exactly the accumulated
records, unmodified and in registration order. -/
theorem c9_list_subscriptions {H : Type} (calls : List (SubscribeCall × H))
    (st : AppState H) :
    _get_subscriptions (applyCalls st calls) =
      st.subscriptions ++ calls.map (fun cf => recordOf cf.1) := by
  induction calls generalizing st with
  | nil => simp [applyCalls, _get_subscriptions]
  | cons c cs ih =>
      have h1 : applyCalls st (c :: cs) = applyCalls (applySubscribe st c.1 c.2) cs := rfl
      rw [h1, ih]
      simp [applySubscribe, decorator, _get_subscriptions, recordOf]

/-- Claim C10: the subscription registry is append-only — each decorator
application appends exactly one record, leaving the previous records
unchanged in their positions, and `_get_subscriptions` reads the list without
modifying anything. -/
theorem c10_append_only {H : Type} (p t : String) (m : List (String × String))
    (r : Option String) (dlt : Option String) (st : AppState H) (f : H) :
    (decorator p t m r dlt st f).1.subscriptions =
      st.subscriptions ++ [subscriptionRecord p t m r dlt] ∧
    (decorator p t m r dlt st f).1.subscriptions.length =
      st.subscriptions.length + 1 ∧
    (decorator p t m r dlt st f).1.subscriptions.take st.subscriptions.length =
      st.subscriptions ∧
    _get_subscriptions st = st.subscriptions := by
  refine ⟨rfl, ?_, ?_, rfl⟩
  · simp [decorator]
  · show (st.subscriptions ++ [subscriptionRecord p t m r dlt]).take
        st.subscriptions.length = st.subscriptions
    simp

end DaprExtLitestar
